import Mathlib

/-!
Shallow embedding of the feature-assembly core of `interface.py`
(`build_feature_vector` and its encoder lookup) from the repository
`Artpdro/predicao`.

Modelling conventions:
* A pandas timestamp built from a calendar date is modelled by `Date`
  (proleptic Gregorian calendar); `dt.dayofweek` (Monday = 0),
  `dt.dayofyear` and `int(dt.isocalendar().week)` are implemented from
  the calendar definitions.
* The `horario` argument may be a `datetime.time`-like object (which
  exposes an `hour` field) or a string; this duck-typed union is the
  inductive `Horario`.
* A fitted `sklearn` `LabelEncoder` is its ordered class list; its
  `transform` on a single value is the index of the value in that list,
  raising (here: `Option.none` / `Except.error`) on an unseen value.
* The predictor object is the record of the three attributes the
  assembler reads: `encoders`, `feature_names`, `holidays_br` (the
  latter `Option`al, mirroring `getattr(predictor, "holidays_br", [])`).
* Python float values are idealised as real numbers, so the assembled
  row is a `List (String × ℝ)` (an association list standing for the
  insertion-ordered dict); the definitions touching `ℝ` are
  noncomputable only because of `Real.sin`/`Real.cos`.
* Exception behaviour is modelled twice: the total functions implement
  the code with every `try/except` resolved, and the `...E` variants
  thread `Except` through the same structure so that "never raises" is
  the provable statement `... = Except.ok ...`.
-/

/-- A calendar date (proleptic Gregorian), as fed to `pd.to_datetime`. -/
structure Date where
  year : Nat
  month : Nat
  day : Nat
deriving DecidableEq

/-- Leap-year test of the Gregorian calendar. -/
def isLeap (y : Nat) : Bool :=
  y % 4 == 0 && (y % 100 != 0 || y % 400 == 0)

/-- Number of days in a month of a given year. -/
def daysInMonth (y m : Nat) : Nat :=
  if m = 2 then (if isLeap y then 29 else 28)
  else if m = 4 ∨ m = 6 ∨ m = 9 ∨ m = 11 then 30
  else 31

/-- `dt.dayofyear`: ordinal of the day within its year (Jan 1 ↦ 1). -/
def diaAno (d : Date) : Nat :=
  (List.range (d.month - 1)).foldl (fun acc i => acc + daysInMonth d.year (i + 1)) 0 + d.day

/-- Days in all years strictly before year `y` (year 1 is the first year). -/
def daysBeforeYear (y : Nat) : Nat :=
  let n := y - 1
  n * 365 + n / 4 - n / 100 + n / 400

/-- `dt.dayofweek`: day of the week with Monday = 0 … Sunday = 6.
Day 0001-01-01 of the proleptic Gregorian calendar is a Monday. -/
def diaSemana (d : Date) : Nat :=
  (daysBeforeYear d.year + diaAno d - 1) % 7

/-- Auxiliary quantity of the ISO-week-number algorithm: the weekday of
31 December of year `y` (0 = Monday convention shifted). -/
def isoP (y : Nat) : Nat :=
  (y + y / 4 - y / 100 + y / 400) % 7

/-- Number of ISO weeks in year `y` (52 or 53). -/
def isoWeeksInYear (y : Nat) : Nat :=
  if isoP y = 4 ∨ isoP (y - 1) = 3 then 53 else 52

/-- `int(dt.isocalendar().week)`: the ISO-8601 week number. -/
def semanaAno (d : Date) : Nat :=
  let w := (diaAno d + 9 - diaSemana d) / 7
  if w = 0 then isoWeeksInYear (d.year - 1)
  else if w = 53 ∧ isoWeeksInYear d.year = 52 then 1
  else w

/-- `fim_semana`: 1 when the day of week is Saturday or Sunday. -/
def fimSemana (d : Date) : Nat :=
  if 5 ≤ diaSemana d then 1 else 0

/-- The duck-typed `horario` argument: either an object exposing an
`hour` field (such as `datetime.time`) or a raw string. -/
inductive Horario where
  | structured : Nat → Horario
  | text : String → Horario

/-- Split a character list at every colon (the shape check of the
`"%H:%M:%S"` format). -/
def splitOnColon : List Char → List (List Char)
  | [] => [[]]
  | c :: rest =>
    let r := splitOnColon rest
    if c = ':' then [] :: r
    else
      match r with
      | [] => [[c]]
      | g :: gs => (c :: g) :: gs

/-- Numeric value of a decimal digit character. -/
def digitVal (c : Char) : Nat := c.toNat - 48

/-- Parse one `strptime`-style numeric field: one or two decimal digits. -/
def fieldToNat (cs : List Char) : Option Nat :=
  if cs ≠ [] ∧ cs.length ≤ 2 ∧ cs.all (fun c => c.isDigit)
  then some (cs.foldl (fun acc c => acc * 10 + digitVal c) 0)
  else none

/-- `pd.to_datetime(str(horario), format="%H:%M:%S", errors="coerce")`,
reduced to the hour component: `some hour` on success, `none` for `NaT`. -/
def parseHHMMSS (s : String) : Option Nat :=
  match splitOnColon s.data with
  | [hs, ms, ss] =>
    match fieldToNat hs, fieldToNat ms, fieldToNat ss with
    | some h, some m, some sec =>
      if h < 24 ∧ m < 60 ∧ sec < 60 then some h else none
    | _, _, _ => none
  | _ => none

/-- The `hora_media` computation: take the `hour` field when the value
exposes one, otherwise parse the string, defaulting to 0 on failure. -/
def horaMedia : Horario → Nat
  | .structured hr => hr
  | .text s => (parseHHMMSS s).getD 0

/-- A fitted `LabelEncoder`: its ordered vocabulary `classes_`. -/
structure LabelEncoder where
  classes_ : List String
deriving DecidableEq

/-- Index of a string in a list (`LabelEncoder.transform` on one value:
`some code`, or `none` where sklearn raises on an unseen label). -/
def indexOfStr (v : String) : List String → Option Nat
  | [] => none
  | c :: rest => if c = v then some 0 else (indexOfStr v rest).map (· + 1)

/-- The per-column encoder lookup of `build_feature_vector` (lines
123-138 of `interface.py`), with every `try/except` resolved:
no encoder ↦ 0; seen value ↦ its code; unseen value ↦ the code of the
first known class; empty vocabulary ↦ 0. -/
def encodeValue (encoders : List (String × LabelEncoder)) (col v : String) : Int :=
  match encoders.lookup col with
  | none => 0
  | some enc =>
    match indexOfStr v enc.classes_ with
    | some k => (k : Int)
    | none =>
      match enc.classes_ with
      | [] => 0
      | c :: rest =>
        match indexOfStr c (c :: rest) with
        | some k => (k : Int)
        | none => 0

/-- The predictor attributes `build_feature_vector` reads. -/
structure Predictor where
  encoders : List (String × LabelEncoder)
  feature_names : List String
  holidays_br : Option (List Date)

/-- `feriado = int(dt in getattr(predictor, "holidays_br", []))`. -/
def feriadoFlag (p : Predictor) (d : Date) : Nat :=
  if d ∈ p.holidays_br.getD [] then 1 else 0

/-- The full computed row (the `row` dict of lines 141-159), given the
already-computed hour and the three encoded categorical codes. -/
noncomputable def assembleRow (p : Predictor) (d : Date) (hm : Nat)
    (eUf eMun eCond : Int) : List (String × ℝ) :=
  [("ano", (d.year : ℝ)),
   ("mes", (d.month : ℝ)),
   ("dia_semana", (diaSemana d : ℝ)),
   ("dia_ano", (diaAno d : ℝ)),
   ("semana_ano", (semanaAno d : ℝ)),
   ("fim_semana", (fimSemana d : ℝ)),
   ("dia_semana_sin", Real.sin (2 * Real.pi * (diaSemana d : ℝ) / 7)),
   ("dia_semana_cos", Real.cos (2 * Real.pi * (diaSemana d : ℝ) / 7)),
   ("dia_ano_sin", Real.sin (2 * Real.pi * (diaAno d : ℝ) / 365.25)),
   ("dia_ano_cos", Real.cos (2 * Real.pi * (diaAno d : ℝ) / 365.25)),
   ("hora_media", (hm : ℝ)),
   ("feriado", (feriadoFlag p d : ℝ)),
   ("feriado_fim_semana", ((feriadoFlag p d * fimSemana d : Nat) : ℝ)),
   ("acidentes_lag_1", 0),
   ("acidentes_lag_2", 0),
   ("acidentes_lag_7", 0),
   ("acidentes_lag_14", 0),
   ("media_movel_7d", 0),
   ("std_movel_7d", 0),
   ("media_movel_14d", 0),
   ("std_movel_14d", 0),
   ("media_movel_28d", 0),
   ("std_movel_28d", 0),
   ("uf_principal_encoded", (eUf : ℝ)),
   ("municipio_principal_encoded", (eMun : ℝ)),
   ("condicao_metereologica_principal_encoded", (eCond : ℝ))]

/-- The computed row before schema projection. -/
noncomputable def computedRow (p : Predictor) (d : Date) (h : Horario)
    (uf municipio cond : String) : List (String × ℝ) :=
  assembleRow p d (horaMedia h)
    (encodeValue p.encoders "uf_principal" uf)
    (encodeValue p.encoders "municipio_principal" municipio)
    (encodeValue p.encoders "condicao_metereologica_principal" cond)

/-- `row.get(feat, 0)`. -/
noncomputable def rowGet (row : List (String × ℝ)) (k : String) : ℝ :=
  (row.lookup k).getD 0

/-- The schema projection of lines 163-166: one entry per schema name,
taken from the row or defaulted to 0. -/
noncomputable def projectRow (schema : List String) (row : List (String × ℝ)) :
    List (String × ℝ) :=
  schema.map fun f => (f, rowGet row f)

/-- `build_feature_vector` (lines 72-169): assemble the row, then
project it onto `feature_names` when that list is non-empty. -/
noncomputable def build_feature_vector (p : Predictor) (d : Date) (h : Horario)
    (uf municipio cond : String) : List (String × ℝ) :=
  let row := computedRow p d h uf municipio cond
  if p.feature_names.isEmpty then row else projectRow p.feature_names row

/-- One Python `try/except` block over `Except`: run the body, and on an
exception run the handler. -/
def catchE {α : Type} (x : Except String α) (handler : String → Except String α) :
    Except String α :=
  match x with
  | .ok a => .ok a
  | .error e => handler e

/-- `enc.transform([val])[0]` with its exception explicit: sklearn
raises on a label outside the learned vocabulary. -/
def transformE (enc : LabelEncoder) (v : String) : Except String Nat :=
  match indexOfStr v enc.classes_ with
  | some k => .ok k
  | none => .error "y contains previously unseen labels"

/-- `enc.classes_[0]` with its exception explicit: indexing an empty
vocabulary raises. -/
def firstClassE (enc : LabelEncoder) : Except String String :=
  match enc.classes_ with
  | [] => .error "index 0 is out of bounds"
  | c :: _ => .ok c

/-- The encoder-lookup loop body with its two nested `try/except`
blocks kept explicit. -/
def encodeValueE (encoders : List (String × LabelEncoder)) (col v : String) :
    Except String Int :=
  match encoders.lookup col with
  | none => .ok 0
  | some enc =>
    catchE (do let k ← transformE enc v; pure (k : Int))
      (fun _ =>
        catchE (do let c ← firstClassE enc; let k ← transformE enc c; pure (k : Int))
          (fun _ => .ok 0))

/-- The `hora_media` computation with its `try/except` kept explicit
(`errors="coerce"` already absorbs the parse failure, so the body of
the `try` cannot itself raise). -/
def horaMediaE : Horario → Except String Nat
  | .structured hr => .ok hr
  | .text s => catchE (.ok ((parseHHMMSS s).getD 0)) (fun _ => .ok 0)

/-- `build_feature_vector` with every locally-caught exception threaded
through `Except`. -/
noncomputable def build_feature_vectorE (p : Predictor) (d : Date) (h : Horario)
    (uf municipio cond : String) : Except String (List (String × ℝ)) := do
  let hm ← horaMediaE h
  let eUf ← encodeValueE p.encoders "uf_principal" uf
  let eMun ← encodeValueE p.encoders "municipio_principal" municipio
  let eCond ← encodeValueE p.encoders "condicao_metereologica_principal" cond
  let row := assembleRow p d hm eUf eMun eCond
  pure (if p.feature_names.isEmpty then row else projectRow p.feature_names row)

/-- The exception-aware encoder lookup never raises and agrees with the
total function. -/
theorem encodeValueE_eq (encoders : List (String × LabelEncoder)) (col v : String) :
    encodeValueE encoders col v = Except.ok (encodeValue encoders col v) := by
  unfold encodeValueE encodeValue
  cases hlook : encoders.lookup col with
  | none => rfl
  | some enc =>
    cases hidx : indexOfStr v enc.classes_ with
    | some k => simp [transformE, hidx, catchE]
    | none =>
      cases hcls : enc.classes_ with
      | nil =>
        rw [hcls] at hidx
        simp [transformE, firstClassE, hcls, hidx, catchE, indexOfStr, Bind.bind, Except.bind]
      | cons c rest =>
        rw [hcls] at hidx
        simp only [indexOfStr] at hidx
        simp [transformE, firstClassE, hcls, hidx, catchE, indexOfStr, Bind.bind, Except.bind,
          Except.map, Pure.pure, Except.pure]

/-- The exception-aware hour computation never raises and agrees with
the total function. -/
theorem horaMediaE_eq (h : Horario) : horaMediaE h = Except.ok (horaMedia h) := by
  cases h with
  | structured hr => rfl
  | text s => rfl

/-- Keys of a projected row are exactly the schema. -/
theorem projectRow_keys (schema : List String) (row : List (String × ℝ)) :
    (projectRow schema row).map Prod.fst = schema := by
  induction schema with
  | nil => rfl
  | cons a s ih => simpa [projectRow] using ih

/-- Looking up a schema member in the projected row yields its
defaulted value from the computed row. -/
theorem projectRow_lookup (schema : List String) (row : List (String × ℝ))
    (f : String) (hf : f ∈ schema) :
    (projectRow schema row).lookup f = some (rowGet row f) := by
  induction schema with
  | nil => cases hf
  | cons a s ih =>
    by_cases hfa : f = a
    · subst hfa
      simp [projectRow, List.lookup]
    · have hba : (f == a) = false := beq_eq_false_iff_ne.mpr hfa
      cases hf with
      | head => exact absurd rfl hfa
      | tail _ hf' =>
        simp only [projectRow, List.map_cons, List.lookup, hba]
        exact ih hf'

/-- With a non-empty schema, the assembler projects the computed row. -/
theorem bfv_nonempty (p : Predictor) (d : Date) (h : Horario)
    (uf municipio cond : String) (hne : p.feature_names ≠ []) :
    build_feature_vector p d h uf municipio cond =
      projectRow p.feature_names (computedRow p d h uf municipio cond) := by
  cases hfn : p.feature_names with
  | nil => exact absurd hfn hne
  | cons a s => simp [build_feature_vector, hfn]

/-- With an empty schema, the assembler returns the computed row itself. -/
theorem bfv_empty (p : Predictor) (d : Date) (h : Horario)
    (uf municipio cond : String) (hfn : p.feature_names = []) :
    build_feature_vector p d h uf municipio cond =
      computedRow p d h uf municipio cond := by
  simp [build_feature_vector, hfn]

/-- Sample encoder fitted on the vocabulary MG, SP. -/
def sampleEnc : LabelEncoder := ⟨["MG", "SP"]⟩

/-- Sample encoder bank holding only the region column. -/
def sampleBank : List (String × LabelEncoder) := [("uf_principal", sampleEnc)]

/-- Sample date (the fixed date used by the interface). -/
def sampleDate : Date := ⟨2020, 1, 1⟩

/-- Sample predictor with a non-empty schema. -/
def samplePredictor : Predictor :=
  ⟨sampleBank, ["ano", "hora_media", "uf_principal"], none⟩

/-- C1: with a non-empty feature-name schema the returned row's key
set equals exactly the schema, in schema order, each value taken from
the computed row or defaulted to 0 when absent; with an empty schema
the returned row is the full computed row verbatim. -/
theorem schema_projection_exact (p : Predictor) (d : Date) (h : Horario)
    (uf municipio cond : String) :
    (p.feature_names ≠ [] →
      (build_feature_vector p d h uf municipio cond).map Prod.fst = p.feature_names ∧
      ∀ f, f ∈ p.feature_names →
        (build_feature_vector p d h uf municipio cond).lookup f =
          some (((computedRow p d h uf municipio cond).lookup f).getD 0)) ∧
    (p.feature_names = [] →
      build_feature_vector p d h uf municipio cond =
        computedRow p d h uf municipio cond) := by
  refine ⟨fun hne => ⟨?_, fun f hf => ?_⟩, bfv_empty p d h uf municipio cond⟩
  · rw [bfv_nonempty p d h uf municipio cond hne, projectRow_keys]
  · rw [bfv_nonempty p d h uf municipio cond hne,
      projectRow_lookup p.feature_names _ f hf]
    rfl

/-- Witness for C1 at concrete inputs: the keys are exactly the schema. -/
theorem schema_projection_exact_witness :
    (build_feature_vector samplePredictor sampleDate (Horario.structured 8)
      "MG" "BELO HORIZONTE" "Bom").map Prod.fst = ["ano", "hora_media", "uf_principal"] :=
  ((schema_projection_exact samplePredictor sampleDate (Horario.structured 8)
    "MG" "BELO HORIZONTE" "Bom").1 (by decide)).1

/-- C2: encoder lookup: no encoder for the column ↦ 0; a recognised
value ↦ its assigned code; an unseen value ↦ the code of the first
known class; an empty vocabulary (the fallback itself fails) ↦ 0; and
the lookup never raises. -/
theorem encoder_lookup_fallbacks (encoders : List (String × LabelEncoder))
    (col v : String) :
    (encoders.lookup col = none → encodeValue encoders col v = 0) ∧
    (∀ enc k, encoders.lookup col = some enc →
      indexOfStr v enc.classes_ = some k → encodeValue encoders col v = (k : Int)) ∧
    (∀ enc c rest, encoders.lookup col = some enc →
      indexOfStr v enc.classes_ = none → enc.classes_ = c :: rest →
      encodeValue encoders col v = ((indexOfStr c enc.classes_).getD 0 : Nat)) ∧
    (∀ enc, encoders.lookup col = some enc →
      indexOfStr v enc.classes_ = none → enc.classes_ = [] →
      encodeValue encoders col v = 0) ∧
    encodeValueE encoders col v = Except.ok (encodeValue encoders col v) := by
  refine ⟨?_, ?_, ?_, ?_, encodeValueE_eq encoders col v⟩
  · intro hl; simp [encodeValue, hl]
  · intro enc k hl hi; simp [encodeValue, hl, hi]
  · intro enc c rest hl hi hcls
    rw [hcls] at hi
    simp only [indexOfStr] at hi
    simp [encodeValue, hl, hi, hcls, indexOfStr]
  · intro enc hl hi hcls
    simp [encodeValue, hl, hcls, indexOfStr]

/-- Witness for C2: looking up the unseen value XX in the sample bank
returns the code of the first known class MG. -/
theorem encoder_lookup_fallbacks_witness :
    encodeValue sampleBank "uf_principal" "XX" =
      ((indexOfStr "MG" sampleEnc.classes_).getD 0 : Nat) :=
  (encoder_lookup_fallbacks sampleBank "uf_principal" "XX").2.2.1 sampleEnc "MG" ["SP"]
    (by decide) (by decide) rfl

/-- C3: an hour-bearing time value contributes its own hour; a string
is parsed in the fixed format HH:MM:SS, the parsed hour is used on
success and 0 on failure; and the hour computation never raises. -/
theorem hour_parsing_fallback (hr : Nat) (s : String) :
    horaMedia (Horario.structured hr) = hr ∧
    (∀ hh, parseHHMMSS s = some hh → horaMedia (Horario.text s) = hh) ∧
    (parseHHMMSS s = none → horaMedia (Horario.text s) = 0) ∧
    (∀ h : Horario, horaMediaE h = Except.ok (horaMedia h)) := by
  refine ⟨rfl, ?_, ?_, horaMediaE_eq⟩
  · intro hh hp; simp [horaMedia, hp]
  · intro hp; simp [horaMedia, hp]

/-- Witness for C3: a well-formed time string yields its hour, and the
unparseable string not-a-time yields hour 0. -/
theorem hour_parsing_fallback_witness :
    horaMedia (Horario.text "08:00:00") = 8 ∧
    horaMedia (Horario.text "not-a-time") = 0 :=
  ⟨(hour_parsing_fallback 0 "08:00:00").2.1 8 (by decide),
   (hour_parsing_fallback 0 "not-a-time").2.2.1 (by decide)⟩

/-- C4: the assembler never raises: with every locally-caught exception
threaded through `Except`, the result is always `Except.ok` of the row
the total function returns, whatever the categorical and time inputs. -/
theorem assembler_never_raises (p : Predictor) (d : Date) (h : Horario)
    (uf municipio cond : String) :
    build_feature_vectorE p d h uf municipio cond =
      Except.ok (build_feature_vector p d h uf municipio cond) := by
  unfold build_feature_vectorE build_feature_vector computedRow
  rw [horaMediaE_eq, encodeValueE_eq, encodeValueE_eq, encodeValueE_eq]
  rfl

/-- C6: the assembler is a pure function of its arguments: two calls on
the same inputs return the same row. -/
theorem assembler_deterministic (p : Predictor) (d : Date) (h : Horario)
    (uf municipio cond : String) :
    build_feature_vector p d h uf municipio cond =
      build_feature_vector p d h uf municipio cond := rfl

/-- The computed row binds `fim_semana` to the weekend flag. -/
theorem computedRow_lookup_fim_semana (p : Predictor) (d : Date) (h : Horario)
    (uf municipio cond : String) :
    (computedRow p d h uf municipio cond).lookup "fim_semana" =
      some ((fimSemana d : ℝ)) := rfl

/-- The computed row binds `feriado` to the holiday flag. -/
theorem computedRow_lookup_feriado (p : Predictor) (d : Date) (h : Horario)
    (uf municipio cond : String) :
    (computedRow p d h uf municipio cond).lookup "feriado" =
      some ((feriadoFlag p d : ℝ)) := rfl

/-- The computed row binds `feriado_fim_semana` to the product of the
holiday and weekend flags. -/
theorem computedRow_lookup_feriado_fim (p : Predictor) (d : Date) (h : Horario)
    (uf municipio cond : String) :
    (computedRow p d h uf municipio cond).lookup "feriado_fim_semana" =
      some (((feriadoFlag p d * fimSemana d : Nat) : ℝ)) := rfl

/-- A point on the unit circle at phase `2π·v/period` (sine first,
matching the row's `_sin`/`_cos` pair). -/
noncomputable def cycPoint (v period : ℝ) : ℝ × ℝ :=
  (Real.sin (2 * Real.pi * v / period), Real.cos (2 * Real.pi * v / period))

/-- Squared Euclidean distance between two points of the plane. -/
noncomputable def chordSq (a b : ℝ × ℝ) : ℝ :=
  (a.1 - b.1) ^ 2 + (a.2 - b.2) ^ 2

/-- Squared chord length between two phases on the unit circle. -/
theorem chordSq_cycPoint (a b p : ℝ) :
    chordSq (cycPoint a p) (cycPoint b p) =
      2 - 2 * Real.cos (2 * Real.pi * a / p - 2 * Real.pi * b / p) := by
  simp only [chordSq, cycPoint]
  rw [Real.cos_sub]
  linear_combination Real.sin_sq_add_cos_sq (2 * Real.pi * a / p) +
    Real.sin_sq_add_cos_sq (2 * Real.pi * b / p)

/-- C7: the day-of-week and day-of-year features are sine and cosine of
`2π·value/period` (periods 7 and 365.25), each (sin, cos) pair lies on
the unit circle, and the squared distance between day-of-week 6 and
day-of-week 0 equals the one between the adjacent mid-week days 2 and
1 — far below the squared linear-encoding gap of 36. -/
theorem cyclical_encoding (p : Predictor) (d : Date) (h : Horario)
    (uf municipio cond : String) :
    (computedRow p d h uf municipio cond).lookup "dia_semana_sin" =
      some (Real.sin (2 * Real.pi * (diaSemana d : ℝ) / 7)) ∧
    (computedRow p d h uf municipio cond).lookup "dia_semana_cos" =
      some (Real.cos (2 * Real.pi * (diaSemana d : ℝ) / 7)) ∧
    (computedRow p d h uf municipio cond).lookup "dia_ano_sin" =
      some (Real.sin (2 * Real.pi * (diaAno d : ℝ) / 365.25)) ∧
    (computedRow p d h uf municipio cond).lookup "dia_ano_cos" =
      some (Real.cos (2 * Real.pi * (diaAno d : ℝ) / 365.25)) ∧
    Real.sin (2 * Real.pi * (diaSemana d : ℝ) / 7) ^ 2 +
      Real.cos (2 * Real.pi * (diaSemana d : ℝ) / 7) ^ 2 = 1 ∧
    Real.sin (2 * Real.pi * (diaAno d : ℝ) / 365.25) ^ 2 +
      Real.cos (2 * Real.pi * (diaAno d : ℝ) / 365.25) ^ 2 = 1 ∧
    chordSq (cycPoint 6 7) (cycPoint 0 7) = chordSq (cycPoint 2 7) (cycPoint 1 7) ∧
    chordSq (cycPoint 6 7) (cycPoint 0 7) < (6 - 0 : ℝ) ^ 2 := by
  have hpi := Real.pi_pos
  have hcPos : 0 < Real.cos (2 * Real.pi / 7) := by
    apply Real.cos_pos_of_mem_Ioo
    constructor
    · nlinarith
    · nlinarith
  have h60 : chordSq (cycPoint 6 7) (cycPoint 0 7) =
      2 - 2 * Real.cos (2 * Real.pi / 7) := by
    rw [chordSq_cycPoint]
    have harg : 2 * Real.pi * 6 / 7 - 2 * Real.pi * 0 / 7 =
        -(2 * Real.pi / 7) + 2 * Real.pi := by ring
    rw [harg, Real.cos_add_two_pi, Real.cos_neg]
  have h21 : chordSq (cycPoint 2 7) (cycPoint 1 7) =
      2 - 2 * Real.cos (2 * Real.pi / 7) := by
    rw [chordSq_cycPoint]
    have harg : 2 * Real.pi * 2 / 7 - 2 * Real.pi * 1 / 7 = 2 * Real.pi / 7 := by ring
    rw [harg]
  refine ⟨rfl, rfl, rfl, rfl, Real.sin_sq_add_cos_sq _, Real.sin_sq_add_cos_sq _, ?_, ?_⟩
  · rw [h60, h21]
  · rw [h60]
    nlinarith

/-- C8: the weekend flag is 1 exactly on days-of-week ≥ 5, the holiday
flag is 1 exactly on membership in the holiday set, the row carries
both flags, and the composite feature is their arithmetic product,
which is 1 exactly when both flags are 1. -/
theorem holiday_weekend_flags (p : Predictor) (d : Date) (h : Horario)
    (uf municipio cond : String) :
    fimSemana d = (if 5 ≤ diaSemana d then 1 else 0) ∧
    (feriadoFlag p d = 1 ↔ d ∈ p.holidays_br.getD []) ∧
    (feriadoFlag p d = 0 ↔ d ∉ p.holidays_br.getD []) ∧
    (computedRow p d h uf municipio cond).lookup "fim_semana" =
      some ((fimSemana d : ℝ)) ∧
    (computedRow p d h uf municipio cond).lookup "feriado" =
      some ((feriadoFlag p d : ℝ)) ∧
    (computedRow p d h uf municipio cond).lookup "feriado_fim_semana" =
      some (((feriadoFlag p d * fimSemana d : Nat) : ℝ)) ∧
    (feriadoFlag p d * fimSemana d = 1 ↔
      feriadoFlag p d = 1 ∧ fimSemana d = 1) := by
  refine ⟨rfl, ?_, ?_,
    computedRow_lookup_fim_semana p d h uf municipio cond,
    computedRow_lookup_feriado p d h uf municipio cond,
    computedRow_lookup_feriado_fim p d h uf municipio cond, ?_⟩
  · by_cases hd : d ∈ p.holidays_br.getD [] <;> simp [feriadoFlag, hd]
  · by_cases hd : d ∈ p.holidays_br.getD [] <;> simp [feriadoFlag, hd]
  · have hf1 : feriadoFlag p d = 0 ∨ feriadoFlag p d = 1 := by
      unfold feriadoFlag; split <;> simp
    have hf2 : fimSemana d = 0 ∨ fimSemana d = 1 := by
      unfold fimSemana; split <;> simp
    rcases hf1 with h1 | h1 <;> rcases hf2 with h2 | h2 <;> simp [h1, h2]

/-- C10: with no holiday set carried by the predictor (absent attribute
or empty set), the holiday flag and the composite holiday-weekend
feature are 0 for every date, and the membership test is total. -/
theorem no_holiday_set_zero (p : Predictor) (d : Date) (h : Horario)
    (uf municipio cond : String)
    (hp : p.holidays_br = none ∨ p.holidays_br = some []) :
    feriadoFlag p d = 0 ∧
    (computedRow p d h uf municipio cond).lookup "feriado" = some 0 ∧
    (computedRow p d h uf municipio cond).lookup "feriado_fim_semana" = some 0 := by
  have hflag : feriadoFlag p d = 0 := by
    rcases hp with hp | hp <;> simp [feriadoFlag, hp]
  refine ⟨hflag, ?_, ?_⟩
  · rw [computedRow_lookup_feriado, hflag]
    norm_num
  · rw [computedRow_lookup_feriado_fim, hflag]
    norm_num

/-- Witness for C10: a predictor whose holiday attribute is absent has
holiday flag 0 on the sample date. -/
theorem no_holiday_set_zero_witness :
    feriadoFlag ⟨[], [], none⟩ sampleDate = 0 :=
  (no_holiday_set_zero ⟨[], [], none⟩ sampleDate (Horario.structured 0) "" "" ""
    (Or.inl rfl)).1

/-- The encoder bank of the worked example (vocabularies containing the
example's region, city and weather label). -/
def bank5 : List (String × LabelEncoder) :=
  [("uf_principal", ⟨["MG", "SP"]⟩),
   ("municipio_principal", ⟨["BELO HORIZONTE"]⟩),
   ("condicao_metereologica_principal", ⟨["Bom", "Chuva"]⟩)]

/-- The predictor of the worked example: the five-name schema of the
spec's end-to-end test. -/
def predictor5 : Predictor :=
  ⟨bank5, ["ano", "mes", "dia_semana", "fim_semana", "hora_media"], some []⟩

/-- The fixed date 2020-01-01 is a Wednesday (day-of-week 2). -/
theorem diaSemana_20200101 : diaSemana ⟨2020, 1, 1⟩ = 2 := by decide

/-- C5: the end-to-end example: date 2020-01-01, time 08:00:00, region
MG, city BELO HORIZONTE, weather Bom and the five-name schema produce
exactly the row ano 2020, mes 1, dia_semana 2, fim_semana 0,
hora_media 8. -/
theorem end_to_end_example :
    build_feature_vector predictor5 ⟨2020, 1, 1⟩ (Horario.structured 8)
      "MG" "BELO HORIZONTE" "Bom" =
      [("ano", 2020), ("mes", 1), ("dia_semana", 2), ("fim_semana", 0),
       ("hora_media", 8)] := by
  have hproj : build_feature_vector predictor5 ⟨2020, 1, 1⟩ (Horario.structured 8)
      "MG" "BELO HORIZONTE" "Bom" =
      projectRow predictor5.feature_names
        (computedRow predictor5 ⟨2020, 1, 1⟩ (Horario.structured 8)
          "MG" "BELO HORIZONTE" "Bom") :=
    bfv_nonempty _ _ _ _ _ _ (by decide)
  rw [hproj]
  show [("ano", ((2020 : Nat) : ℝ)), ("mes", ((1 : Nat) : ℝ)),
      ("dia_semana", ((diaSemana ⟨2020, 1, 1⟩ : Nat) : ℝ)),
      ("fim_semana", ((fimSemana ⟨2020, 1, 1⟩ : Nat) : ℝ)),
      ("hora_media", ((8 : Nat) : ℝ))] = _
  rw [diaSemana_20200101]
  have hfs : fimSemana ⟨2020, 1, 1⟩ = 0 := by decide
  rw [hfs]
  norm_num

/-- The key list of the computed row, in insertion order. -/
def rowKeys : List String :=
  ["ano", "mes", "dia_semana", "dia_ano", "semana_ano", "fim_semana",
   "dia_semana_sin", "dia_semana_cos", "dia_ano_sin", "dia_ano_cos",
   "hora_media", "feriado", "feriado_fim_semana",
   "acidentes_lag_1", "acidentes_lag_2", "acidentes_lag_7", "acidentes_lag_14",
   "media_movel_7d", "std_movel_7d", "media_movel_14d", "std_movel_14d",
   "media_movel_28d", "std_movel_28d",
   "uf_principal_encoded", "municipio_principal_encoded",
   "condicao_metereologica_principal_encoded"]

/-- The computed row's keys do not depend on the inputs. -/
theorem computedRow_keys (p : Predictor) (d : Date) (h : Horario)
    (uf municipio cond : String) :
    (computedRow p d h uf municipio cond).map Prod.fst = rowKeys := rfl

/-- C9: the computed row's encoded categorical entries are exactly the
three keys built by appending `_encoded` to the encoder column names;
the bare column names never occur as keys, so a schema listing a bare
column name is served the 0 default for it. -/
theorem encoded_categorical_keys (p : Predictor) (d : Date) (h : Horario)
    (uf municipio cond : String) :
    ((computedRow p d h uf municipio cond).map Prod.fst).filter
        (fun k => "_encoded".data.isSuffixOf k.data) =
      ["uf_principal_encoded", "municipio_principal_encoded",
       "condicao_metereologica_principal_encoded"] ∧
    (∀ f, f ∈ (["uf_principal", "municipio_principal",
        "condicao_metereologica_principal"] : List String) →
      f ∉ (computedRow p d h uf municipio cond).map Prod.fst ∧
      (computedRow p d h uf municipio cond).lookup f = none ∧
      (f ∈ p.feature_names →
        (build_feature_vector p d h uf municipio cond).lookup f = some 0)) := by
  constructor
  · rw [computedRow_keys]
    decide
  · intro f hf
    have hlook : (computedRow p d h uf municipio cond).lookup f = none := by
      fin_cases hf <;> rfl
    refine ⟨?_, hlook, fun hfn => ?_⟩
    · rw [computedRow_keys]
      fin_cases hf <;> decide
    · rw [bfv_nonempty p d h uf municipio cond (List.ne_nil_of_mem hfn),
        projectRow_lookup p.feature_names _ f hfn]
      simp [rowGet, hlook]

/-- Witness for C9: the bare region column name listed in the sample
schema receives the 0 default. -/
theorem encoded_categorical_keys_witness :
    (build_feature_vector samplePredictor sampleDate (Horario.structured 8)
      "MG" "BELO HORIZONTE" "Bom").lookup "uf_principal" = some 0 :=
  ((encoded_categorical_keys samplePredictor sampleDate (Horario.structured 8)
    "MG" "BELO HORIZONTE" "Bom").2 "uf_principal" (by decide)).2.2 (by decide)
